import Mathlib

/-!
Shallow embedding of the message entities and guild-event layer of the
hikari repository (files `hikari/messages.py` and
`hikari/events/guild_events.py`), together with theorems checking the
natural-language specification against it.

Modelling conventions:
* snowflake IDs are natural numbers;
* the tri-state "undefined-or-value" convention is the `UndefinedOr`
  type below; `UndefinedNoneOr a` abbreviates `UndefinedOr (Option a)`;
* the application object is a record holding the always-present REST
  capability and an optional cache capability; the runtime capability
  test `isinstance(app, traits.CacheAware)` is embedded as presence of
  the optional cache field;
* Python mappings are embedded as association lists in insertion order
  (dictionary keys are distinct), sequences as lists;
* asynchronous methods that delegate to a REST endpoint taking rich
  message-typed arguments are embedded by reifying the issued call as a
  `RestCall` value carrying the exact arguments passed through, while
  the simple fetch endpoints used by events are embedded as functions
  of the REST capability so that their results can be observed;
* entity shapes that live in collaborating modules outside the two
  embedded files (users, guilds, presences, emojis, embeds, stickers)
  are embedded as minimal records carrying the fields this layer reads.
-/

namespace Hikari

/-- Snowflake: 64-bit unsigned identifier; embedded as a natural number. -/
abbrev Snowflake := Nat

/-- Timestamps are opaque to this layer; embedded as integers. -/
abbrev Datetime := Int

/-- The tri-state field convention of `hikari.undefined`: a field is either
the `UNDEFINED` sentinel or carries a value (which may itself be an
`Option` for nullable fields). -/
inductive UndefinedOr (α : Type) where
  | undefined
  | defined (value : α)
  deriving Repr, DecidableEq

/-- `UndefinedNoneOr`, as in hikari: undefined, explicit null, or a value. -/
abbrev UndefinedNoneOr (α : Type) := UndefinedOr (Option α)

/-- Error kinds raised locally by the embedded pure code: Python
`IndexError` (out-of-bounds sequence access, the out-of-bounds error
kind) and `ValueError` (malformed argument to a pure builder, the
`InvalidArgument` kind of the specification). -/
inductive PyError where
  | indexError
  | valueError
  deriving Repr, DecidableEq

/-- Error kinds surfaced verbatim from the REST collaborator. -/
inductive RestError where
  | notFound
  | forbidden
  | unauthorized
  | badRequest
  | internalServerError
  | rateLimited
  deriving Repr, DecidableEq

/- ## External entity shapes (collaborator modules, minimal fields) -/

structure User where
  id : Snowflake
  deriving Repr, DecidableEq

structure PartialUser where
  id : Snowflake
  deriving Repr, DecidableEq

structure Member where
  guildId : Snowflake
  userId : Snowflake
  deriving Repr, DecidableEq

structure Role where
  id : Snowflake
  deriving Repr, DecidableEq

structure GatewayGuild where
  id : Snowflake
  deriving Repr, DecidableEq

structure RESTGuild where
  id : Snowflake
  deriving Repr, DecidableEq

structure GuildPreview where
  id : Snowflake
  deriving Repr, DecidableEq

structure PartialChannel where
  id : Snowflake
  deriving Repr, DecidableEq

structure PartialSticker where
  id : Snowflake
  deriving Repr, DecidableEq

structure Embed where
  raw : String
  deriving Repr, DecidableEq

structure Resourceish where
  raw : String
  deriving Repr, DecidableEq

structure ComponentBuilder where
  raw : String
  deriving Repr, DecidableEq

/-- Unicode or custom emoji (module `hikari.emojis`, external shape). -/
inductive Emoji where
  | unicodeEmoji (name : String)
  | customEmoji (id : Snowflake) (name : String)
  deriving Repr, DecidableEq

/-- A gateway shard handle: opaque at this layer. -/
structure Shard where
  id : Nat
  deriving Repr, DecidableEq

/- ## Collaborator capabilities -/

/-- The cache capability consumed through `traits.CacheAware`
(synchronous lookups, optional results, never failing). -/
structure CacheCapability where
  getAvailableGuild : Snowflake → Option GatewayGuild
  getUnavailableGuild : Snowflake → Option GatewayGuild
  getUser : Snowflake → Option User
  getMember : Snowflake → Snowflake → Option Member
  getRole : Snowflake → Option Role

/-- The fetch endpoints of the REST capability used by the embedded
events; each can fail with a REST error kind. -/
structure RestCapability where
  fetchGuild : Snowflake → Except RestError RESTGuild
  fetchGuildPreview : Snowflake → Except RestError GuildPreview
  fetchUser : Snowflake → Except RestError User

/-- The application object: REST capability is always present, the cache
capability is optional.  `isinstance(app, traits.CacheAware)` is embedded
as `app.cache` being `some`. -/
structure App where
  rest : RestCapability
  cache : Option CacheCapability

/- ## Guild events (`hikari/events/guild_events.py`) -/

/-- `GuildEvent.fetch_guild` (lines 86-94): delegate to the REST
capability with the event guild ID.  The abstract base reads only
`self.app` and `self.guild_id`, so it is embedded as a function of
those two projections. -/
def GuildEvent.fetch_guild (app : App) (guild_id : Snowflake) : Except RestError RESTGuild :=
  app.rest.fetchGuild guild_id

/-- `GuildEvent.fetch_guild_preview` (lines 96-104). -/
def GuildEvent.fetch_guild_preview (app : App) (guild_id : Snowflake) : Except RestError GuildPreview :=
  app.rest.fetchGuildPreview guild_id

/-- `GuildEvent.get_guild` (lines 106-119): `None` when the application
is not cache-aware, otherwise the available-guild lookup, falling back
(Python `or`, guild objects being always truthy) to the
unavailable-guild lookup. -/
def GuildEvent.get_guild (app : App) (guild_id : Snowflake) : Option GatewayGuild :=
  match app.cache with
  | none => none
  | some cache =>
    match cache.getAvailableGuild guild_id with
    | some guild => some guild
    | none => cache.getUnavailableGuild guild_id

/-- `GuildLeaveEvent` (lines 240-267): app, shard, guild ID and the
optional previously-cached guild snapshot. -/
structure GuildLeaveEvent where
  app : App
  shard : Shard
  guild_id : Snowflake
  old_guild : Option GatewayGuild

/-- Runtime method resolution for `GuildLeaveEvent.fetch_guild`: the
override at lines 264-267 is declared under `if typing.TYPE_CHECKING:`
with a `NoReturn` result type, so it exists only for the static type
checker; at runtime the class inherits `GuildEvent.fetch_guild` and the
call is delegated to the REST capability. -/
def GuildLeaveEvent.fetch_guild (ev : GuildLeaveEvent) : Except RestError RESTGuild :=
  GuildEvent.fetch_guild ev.app ev.guild_id

/-- `GuildUnavailableEvent` (lines 270-283). -/
structure GuildUnavailableEvent where
  app : App
  shard : Shard
  guild_id : Snowflake

/-- `MemberPresence` (module `hikari.presences`, external shape): the
fields read by `PresenceUpdateEvent` accessors. -/
structure MemberPresence where
  app : App
  user_id : Snowflake
  guild_id : Snowflake

/-- `PresenceUpdateEvent` (lines 600-699). -/
structure PresenceUpdateEvent where
  shard : Shard
  old_presence : Option MemberPresence
  presence : MemberPresence
  user : Option PartialUser

/-- `PresenceUpdateEvent.app` property (lines 651-654). -/
def PresenceUpdateEvent.app (ev : PresenceUpdateEvent) : App :=
  ev.presence.app

/-- `PresenceUpdateEvent.user_id` property (lines 656-665). -/
def PresenceUpdateEvent.user_id (ev : PresenceUpdateEvent) : Snowflake :=
  ev.presence.user_id

/-- `PresenceUpdateEvent.guild_id` property (lines 667-676). -/
def PresenceUpdateEvent.guild_id (ev : PresenceUpdateEvent) : Snowflake :=
  ev.presence.guild_id

/-- `PresenceUpdateEvent.get_user` (lines 678-689): `None` when the
application is not cache-aware, otherwise the user-cache lookup. -/
def PresenceUpdateEvent.get_user (ev : PresenceUpdateEvent) : Option User :=
  match ev.app.cache with
  | none => none
  | some cache => cache.getUser ev.user_id

/-- `PresenceUpdateEvent.fetch_user` (lines 691-699). -/
def PresenceUpdateEvent.fetch_user (ev : PresenceUpdateEvent) : Except RestError User :=
  ev.app.rest.fetchUser ev.user_id

/- ## Message entities (`hikari/messages.py`) -/

/-- `Attachment` (lines 195-229). -/
structure Attachment where
  id : Snowflake
  url : String
  filename : String
  media_type : Option String
  size : Nat
  proxy_url : String
  height : Option Nat
  width : Option Nat
  deriving Repr, DecidableEq

/-- `Reaction` (lines 232-247). -/
structure Reaction where
  count : Nat
  emoji : Emoji
  is_me : Bool
  deriving Repr, DecidableEq

/-- `MessageActivity` (lines 250-259); the int-backed activity type is
kept as the raw integer (unknown wire values round-trip). -/
structure MessageActivity where
  type : Nat
  party_id : Option String
  deriving Repr, DecidableEq

/-- `MessageReference` (lines 382-411). -/
structure MessageReference where
  app : App
  id : Option Snowflake
  channel_id : Snowflake
  guild_id : Option Snowflake

/-- `MessageApplication` (lines 414-468).  It extends
`guilds.PartialApplication` (a collaborator module); of the inherited
fields only `id` (and `name`, for shape) is carried here. -/
structure MessageApplication where
  id : Snowflake
  name : String
  cover_image_hash : Option String
  primary_sku_id : Option Snowflake
  deriving Repr, DecidableEq

/-- `urls.CDN_URL` (collaborator constant). -/
def CDN_URL : String := "https://cdn.discordapp.com"

/-- Modelled from the spec: `routes.CDN_APPLICATION_COVER.compile_to_file`
lives in `hikari/internal/routes.py`, which is not among the embedded
source files.  Per the specification, URL building validates that the
size is a power of two in [16, 4096] (otherwise an `InvalidArgument`
error, Python `ValueError`) and that the format is one of a fixed
enumerated set, and produces the CDN URL for the application cover
asset from the application ID, hash, format and size. -/
def compile_to_file_application_cover (application_id : Snowflake) (hash : String)
    (size : Nat) (file_format : String) : Except PyError String :=
  if ["png", "jpeg", "jpg", "webp"].contains file_format then
    if size < 16 ∨ size > 4096 then .error .valueError
    else if size &&& (size - 1) ≠ 0 then .error .valueError
    else .ok (CDN_URL ++ "/app-assets/" ++ toString application_id ++ "/store/" ++ hash
      ++ "." ++ file_format ++ "?size=" ++ toString size)
  else .error .valueError

/-- `MessageApplication.make_cover_image_url` (lines 436-468): `None`
when no cover image hash is set (checked before any validation),
otherwise the compiled CDN URL or the validation error. -/
def MessageApplication.make_cover_image_url (self : MessageApplication)
    (ext : String) (size : Nat) : Except PyError (Option String) :=
  match self.cover_image_hash with
  | none => .ok none
  | some h => (compile_to_file_application_cover self.id h size ext).map some

/-- `MessageInteraction` (lines 471-486); the interaction type is kept
as the raw integer. -/
structure MessageInteraction where
  id : Snowflake
  type : Nat
  name : String
  user : User
  deriving Repr, DecidableEq

/-- `SelectMenuOption` (lines 629-646). -/
structure SelectMenuOption where
  label : String
  value : String
  description : Option String
  emoji : Option Emoji
  is_default : Bool
  deriving Repr, DecidableEq

/-- The component hierarchy (lines 584-694): `PartialComponent` base
with its `type` field kept as the raw integer, and the button, select
menu and action-row subclasses as variants; an action row contains an
ordered sequence of child components. -/
inductive PartialComponent where
  | base (type : Nat)
  | button (type : Nat) (style : Nat) (label : Option String) (emoji : Option Emoji)
      (custom_id : Option String) (url : Option String) (is_disabled : Bool)
  | selectMenu (type : Nat) (custom_id : String) (options : List SelectMenuOption)
      (placeholder : Option String) (min_values : Nat) (max_values : Nat) (is_disabled : Bool)
  | actionRow (type : Nat) (components : List PartialComponent)
  deriving Repr

/-- `ActionRowComponent` (lines 685-714) viewed as a record: the `type`
field inherited from `PartialComponent` and the ordered child sequence. -/
structure ActionRowComponent where
  type : Nat
  components : List PartialComponent
  deriving Repr

/-- The injection of the record view into the component hierarchy. -/
def ActionRowComponent.toComponent (row : ActionRowComponent) : PartialComponent :=
  .actionRow row.type row.components

/-- Python list `__getitem__` with an integer index, as used by
`ActionRowComponent.__getitem__` (line 708): a negative index counts
from the end of the list; an index that is still out of range after
that adjustment raises `IndexError`. -/
def pyGetItemList {α : Type} (xs : List α) (i : Int) : Except PyError α :=
  let n : Int := xs.length
  let j : Int := if i < 0 then i + n else i
  if j < 0 then .error .indexError
  else
    match xs.get? j.toNat with
    | some a => .ok a
    | none => .error .indexError

/-- `ActionRowComponent.__getitem__` (lines 705-708) on the integer
overload: delegates to Python sequence indexing on `components`. (The
slice overload of the source is outside this embedding.) -/
def ActionRowComponent.getitem (self : ActionRowComponent) (index : Int) :
    Except PyError PartialComponent :=
  pyGetItemList self.components index

/-- `ActionRowComponent.__len__` (lines 713-714). -/
def ActionRowComponent.len (self : ActionRowComponent) : Nat :=
  self.components.length

/- ## Mentions (lines 262-379) -/

/-- The part of the owning message that `Mentions` reads through its
`_message` back-reference: the application object and the guild ID.
(In the source the back-reference is the whole message object; the
reference is cyclic at runtime, so the embedding carries exactly the
two projections the methods use.) -/
structure OwningMessage where
  app : App
  guild_id : Option Snowflake

/-- `Mentions` (lines 262-299). -/
structure Mentions where
  message : OwningMessage
  users : UndefinedOr (List (Snowflake × User))
  role_ids : UndefinedOr (List Snowflake)
  channels : UndefinedOr (List (Snowflake × PartialChannel))
  everyone : UndefinedOr Bool

/-- `Mentions.channels_ids` property (lines 287-292). -/
def Mentions.channels_ids (self : Mentions) : UndefinedOr (List Snowflake) :=
  match self.channels with
  | .undefined => .undefined
  | .defined cs => .defined (cs.map Prod.fst)

/-- `Mentions.user_ids` property (lines 294-299). -/
def Mentions.user_ids (self : Mentions) : UndefinedOr (List Snowflake) :=
  match self.users with
  | .undefined => .undefined
  | .defined us => .defined (us.map Prod.fst)

/-- `Mentions._map_cache_maybe_discover` (lines 369-379): for each ID in
order, query the cache; keep the entry only when the cache returned a
value (misses are silently dropped). -/
def Mentions.map_cache_maybe_discover {α : Type} :
    List Snowflake → (Snowflake → Option α) → List (Snowflake × α)
  | [], _ => []
  | id :: rest, cache_call =>
    match cache_call id with
    | some obj => (id, obj) :: Mentions.map_cache_maybe_discover rest cache_call
    | none => Mentions.map_cache_maybe_discover rest cache_call

/-- `Mentions.get_members` (lines 301-333): `UNDEFINED` when the users
field is undefined; a bulk member-cache lookup over the mentioned user
IDs when the application is cache-aware and the owning message has a
guild ID; an empty mapping otherwise. -/
def Mentions.get_members (self : Mentions) :
    UndefinedOr (List (Snowflake × Member)) :=
  match self.users with
  | .undefined => .undefined
  | .defined users =>
    match self.message.app.cache, self.message.guild_id with
    | some cache, some guild_id =>
      .defined (Mentions.map_cache_maybe_discover (users.map Prod.fst)
        (fun user_id => cache.getMember guild_id user_id))
    | _, _ => .defined []

/-- `Mentions.get_roles` (lines 335-367). -/
def Mentions.get_roles (self : Mentions) :
    UndefinedOr (List (Snowflake × Role)) :=
  match self.role_ids with
  | .undefined => .undefined
  | .defined ids =>
    match self.message.app.cache, self.message.guild_id with
    | some cache, some _ =>
      .defined (Mentions.map_cache_maybe_discover ids cache.getRole)
    | _, _ => .defined []

/- ## PartialMessage and Message (lines 717-1621) -/

/-- `Message` (lines 1527-1621): the fully-populated refinement of
`PartialMessage`; every field is required (nullable where the source is
`Optional`), and `referenced_message` recursively holds another full
message.  Embedded as an inductive because of that recursion. -/
inductive Message where
  | mk (app : App) (id : Snowflake) (channel_id : Snowflake) (guild_id : Option Snowflake)
      (author : User) (member : Option Member) (content : Option String)
      (timestamp : Datetime) (edited_timestamp : Option Datetime) (is_tts : Bool)
      (mentions : Mentions) (attachments : List Attachment) (embeds : List Embed)
      (reactions : List Reaction) (is_pinned : Bool) (webhook_id : Option Snowflake)
      (type : Nat) (activity : Option MessageActivity)
      (application : Option MessageApplication)
      (message_reference : Option MessageReference) (flags : Nat)
      (stickers : List PartialSticker) (nonce : Option String)
      (referenced_message : Option Message)
      (interaction : Option MessageInteraction) (application_id : Option Snowflake)
      (components : List PartialComponent)

/-- `PartialMessage` (lines 717-868): `app`, `id` and `channel_id` are
always present; `guild_id` is always present but nullable; every other
field follows the undefined-or-value (or undefined-or-null-or-value)
convention.  The int-backed `type` and `flags` fields are kept as raw
integers. -/
structure PartialMessage where
  app : App
  id : Snowflake
  channel_id : Snowflake
  guild_id : Option Snowflake
  author : UndefinedOr User
  member : UndefinedNoneOr Member
  content : UndefinedNoneOr String
  timestamp : UndefinedOr Datetime
  edited_timestamp : UndefinedNoneOr Datetime
  is_tts : UndefinedOr Bool
  mentions : Mentions
  attachments : UndefinedOr (List Attachment)
  embeds : UndefinedOr (List Embed)
  reactions : UndefinedOr (List Reaction)
  is_pinned : UndefinedOr Bool
  webhook_id : UndefinedNoneOr Snowflake
  type : UndefinedOr Nat
  activity : UndefinedNoneOr MessageActivity
  application : UndefinedNoneOr MessageApplication
  message_reference : UndefinedNoneOr MessageReference
  flags : UndefinedOr Nat
  stickers : UndefinedOr (List PartialSticker)
  nonce : UndefinedNoneOr String
  referenced_message : UndefinedNoneOr Message
  interaction : UndefinedNoneOr MessageInteraction
  application_id : UndefinedNoneOr Snowflake
  components : UndefinedOr (List PartialComponent)

/-- `snowflakes.SnowflakeishOr[T]`: either the entity object itself or a
bare snowflake ID. -/
inductive SnowflakeishOr (α : Type) where
  | obj (a : α)
  | id (s : Snowflake)

/-- The `emoji` argument shape of the reaction methods: a unicode emoji
or emoji name string, or an emoji object. -/
inductive EmojiOrStr where
  | str (s : String)
  | emoji (e : Emoji)
  deriving Repr, DecidableEq

/-- The `user_mentions`/`role_mentions` argument shape: a boolean switch
or a sequence of snowflakeish IDs, passed through unchanged. -/
inductive MentionControl where
  | boolVal (b : Bool)
  | ids (l : List Snowflake)
  deriving Repr, DecidableEq

/-- The `reply` parameter of `respond` (lines 1130-1132): undefined, a
boolean, or a snowflakeish target message. -/
inductive RespondReplyArg where
  | undefinedArg
  | boolArg (b : Bool)
  | target (t : SnowflakeishOr PartialMessage)

/-- The REST-collaborator calls issued by the message mutator methods,
reified with the exact arguments passed through (argument order follows
the call sites in the source). -/
inductive RestCall where
  | createMessage (channel : Snowflake) (content : UndefinedOr String)
      (attachment : UndefinedOr Resourceish) (attachments : UndefinedOr (List Resourceish))
      (component : UndefinedOr ComponentBuilder)
      (components : UndefinedOr (List ComponentBuilder))
      (embed : UndefinedOr Embed) (embeds : UndefinedOr (List Embed))
      (nonce : UndefinedOr String) (tts : UndefinedOr Bool)
      (reply : UndefinedOr (SnowflakeishOr PartialMessage))
      (mentions_everyone : UndefinedOr Bool)
      (user_mentions : UndefinedOr MentionControl)
      (role_mentions : UndefinedOr MentionControl)
      (mentions_reply : UndefinedOr Bool)
  | deleteMessage (channel : Snowflake) (message : Snowflake)
  | addReaction (channel : Snowflake) (message : Snowflake) (emoji : EmojiOrStr)
      (emoji_id : UndefinedOr (SnowflakeishOr Emoji))
  | deleteMyReaction (channel : Snowflake) (message : Snowflake) (emoji : EmojiOrStr)
      (emoji_id : UndefinedOr (SnowflakeishOr Emoji))
  | deleteReaction (channel : Snowflake) (message : Snowflake) (emoji : EmojiOrStr)
      (emoji_id : UndefinedOr (SnowflakeishOr Emoji)) (user : SnowflakeishOr PartialUser)
  | deleteAllReactions (channel : Snowflake) (message : Snowflake)
  | deleteAllReactionsForEmoji (channel : Snowflake) (message : Snowflake)
      (emoji : EmojiOrStr) (emoji_id : UndefinedOr (SnowflakeishOr Emoji))

/-- `PartialMessage.respond` (lines 1118-1284): normalize the `reply`
argument (`True` becomes the message itself, `False` becomes the
undefined sentinel, anything else is passed through), then delegate to
the `create_message` REST call on this channel with every argument
passed through. -/
def PartialMessage.respond (self : PartialMessage) (content : UndefinedOr String)
    (attachment : UndefinedOr Resourceish) (attachments : UndefinedOr (List Resourceish))
    (component : UndefinedOr ComponentBuilder)
    (components : UndefinedOr (List ComponentBuilder))
    (embed : UndefinedOr Embed) (embeds : UndefinedOr (List Embed))
    (nonce : UndefinedOr String) (tts : UndefinedOr Bool)
    (reply : RespondReplyArg)
    (mentions_everyone : UndefinedOr Bool) (mentions_reply : UndefinedOr Bool)
    (user_mentions : UndefinedOr MentionControl)
    (role_mentions : UndefinedOr MentionControl) : RestCall :=
  let reply2 : UndefinedOr (SnowflakeishOr PartialMessage) :=
    match reply with
    | .boolArg true => .defined (.obj self)
    | .boolArg false => .undefined
    | .undefinedArg => .undefined
    | .target t => .defined t
  .createMessage self.channel_id content attachment attachments component components
    embed embeds nonce tts reply2 mentions_everyone user_mentions role_mentions
    mentions_reply

/-- `PartialMessage.delete` (lines 1286-1297). -/
def PartialMessage.delete (self : PartialMessage) : RestCall :=
  .deleteMessage self.channel_id self.id

/-- `PartialMessage.add_reaction` (lines 1314-1371). -/
def PartialMessage.add_reaction (self : PartialMessage) (emoji : EmojiOrStr)
    (emoji_id : UndefinedOr (SnowflakeishOr Emoji)) : RestCall :=
  .addReaction self.channel_id self.id emoji emoji_id

/-- `PartialMessage.remove_reaction` (lines 1392-1456): with the `user`
parameter unspecified, delegate to `delete_my_reaction` (remove the
reaction of the current bot user only); with a user given, delegate to
`delete_reaction` for that user. -/
def PartialMessage.remove_reaction (self : PartialMessage) (emoji : EmojiOrStr)
    (emoji_id : UndefinedOr (SnowflakeishOr Emoji))
    (user : UndefinedOr (SnowflakeishOr PartialUser)) : RestCall :=
  match user with
  | .undefined => .deleteMyReaction self.channel_id self.id emoji emoji_id
  | .defined u => .deleteReaction self.channel_id self.id emoji emoji_id u

/-- `PartialMessage.remove_all_reactions` (lines 1477-1524). -/
def PartialMessage.remove_all_reactions (self : PartialMessage)
    (emoji : UndefinedOr EmojiOrStr)
    (emoji_id : UndefinedOr (SnowflakeishOr Emoji)) : RestCall :=
  match emoji with
  | .undefined => .deleteAllReactions self.channel_id self.id
  | .defined e => .deleteAllReactionsForEmoji self.channel_id self.id e emoji_id

/- ## Concrete example values used by counterexamples and witnesses -/

/-- A concrete REST capability whose guild fetch succeeds with guild 42. -/
def restStub : RestCapability :=
  { fetchGuild := fun _ => .ok { id := 42 }
    fetchGuildPreview := fun _ => .error .notFound
    fetchUser := fun _ => .error .notFound }

/-- A concrete cache capability: available guild 10, unavailable guild
11, user 7, and the member (guild 5, user 2) are cached; nothing else. -/
def cacheStub : CacheCapability :=
  { getAvailableGuild := fun i => if i = 10 then some { id := 10 } else none
    getUnavailableGuild := fun i => if i = 11 then some { id := 11 } else none
    getUser := fun i => if i = 7 then some { id := 7 } else none
    getMember := fun g u => if g = 5 ∧ u = 2 then some { guildId := g, userId := u } else none
    getRole := fun _ => none }

/-- An application without the cache capability. -/
def appNoCache : App := { rest := restStub, cache := none }

/-- An application with the cache capability. -/
def appWithCache : App := { rest := restStub, cache := some cacheStub }

/-- A concrete guild-leave event whose application can reach REST. -/
def leaveEventC1 : GuildLeaveEvent :=
  { app := appNoCache, shard := { id := 0 }, guild_id := 1, old_guild := none }

/-- A concrete presence-update event on a cache-less application. -/
def presenceEventNoCache : PresenceUpdateEvent :=
  { shard := { id := 0 }
    old_presence := none
    presence := { app := appNoCache, user_id := 7, guild_id := 5 }
    user := none }

/-- A concrete presence-update event on a cache-aware application whose
user is not in the user cache. -/
def presenceEventMiss : PresenceUpdateEvent :=
  { shard := { id := 0 }
    old_presence := none
    presence := { app := appWithCache, user_id := 8, guild_id := 5 }
    user := none }

/- ## Claim theorems -/

/-- C1 counterexample: on a concrete `GuildLeaveEvent` whose REST
capability answers the guild fetch with guild 42, calling `fetch_guild`
does attempt the REST call and returns that guild — it does not fail,
so the claim that it always fails and never returns a guild is false on
the code as it runs. -/
theorem guildLeave_fetch_guild_counterexample :
    GuildLeaveEvent.fetch_guild leaveEventC1 = Except.ok { id := 42 } := rfl

/-- C1 (amended): the always-fail contract of
`GuildLeaveEvent.fetch_guild` is static only — the override is declared
under `typing.TYPE_CHECKING` with a `NoReturn` type, so at runtime the
method is the inherited `GuildEvent.fetch_guild` and simply delegates
the fetch to the REST capability with the event guild ID, returning
whatever the REST collaborator returns. -/
theorem guildLeave_fetch_guild_runtime_delegates :
    ∀ ev : GuildLeaveEvent,
      GuildLeaveEvent.fetch_guild ev = GuildEvent.fetch_guild ev.app ev.guild_id ∧
      GuildLeaveEvent.fetch_guild ev = ev.app.rest.fetchGuild ev.guild_id :=
  fun _ => ⟨rfl, rfl⟩

/-- C5: the synchronous cache accessors `GuildEvent.get_guild` and
`PresenceUpdateEvent.get_user` return `None` — and never signal an
error (their result type has no error alternative) — both when the
application has no cache capability at all and when the entity is not
in the cache. -/
theorem get_accessors_cache_miss_is_none :
    (∀ (app : App) (gid : Snowflake), app.cache = none →
      GuildEvent.get_guild app gid = none) ∧
    (∀ (app : App) (gid : Snowflake) (c : CacheCapability), app.cache = some c →
      c.getAvailableGuild gid = none → c.getUnavailableGuild gid = none →
      GuildEvent.get_guild app gid = none) ∧
    (∀ ev : PresenceUpdateEvent, ev.app.cache = none →
      PresenceUpdateEvent.get_user ev = none) ∧
    (∀ (ev : PresenceUpdateEvent) (c : CacheCapability), ev.app.cache = some c →
      c.getUser ev.user_id = none → PresenceUpdateEvent.get_user ev = none) := by
  refine ⟨?_, ?_, ?_, ?_⟩
  · intro app gid h
    simp [GuildEvent.get_guild, h]
  · intro app gid c hc ha hu
    simp [GuildEvent.get_guild, hc, ha, hu]
  · intro ev h
    simp [PresenceUpdateEvent.get_user, h]
  · intro ev c hc hu
    simp [PresenceUpdateEvent.get_user, hc, hu]

/-- C5 witness: the accessors at concrete cache-less and cache-missing
inputs. -/
theorem get_accessors_cache_miss_is_none_witness :
    GuildEvent.get_guild appNoCache 5 = none ∧
    PresenceUpdateEvent.get_user presenceEventNoCache = none ∧
    PresenceUpdateEvent.get_user presenceEventMiss = none :=
  ⟨get_accessors_cache_miss_is_none.1 appNoCache 5 rfl,
   get_accessors_cache_miss_is_none.2.2.1 presenceEventNoCache rfl,
   get_accessors_cache_miss_is_none.2.2.2 presenceEventMiss cacheStub rfl (by decide)⟩

/-- C9: with the cache capability present, `GuildEvent.get_guild`
consults the available-guild cache first — an available hit is returned
no matter what the unavailable-guild cache holds — and falls back to
the unavailable-guild cache exactly when the available lookup returned
nothing; when both miss, the result is `None`. -/
theorem get_guild_available_before_unavailable :
    ∀ (app : App) (c : CacheCapability) (gid : Snowflake), app.cache = some c →
      (∀ g, c.getAvailableGuild gid = some g → GuildEvent.get_guild app gid = some g) ∧
      (c.getAvailableGuild gid = none →
        GuildEvent.get_guild app gid = c.getUnavailableGuild gid) ∧
      (c.getAvailableGuild gid = none → c.getUnavailableGuild gid = none →
        GuildEvent.get_guild app gid = none) := by
  intro app c gid hc
  refine ⟨?_, ?_, ?_⟩
  · intro g hg
    simp [GuildEvent.get_guild, hc, hg]
  · intro ha
    simp [GuildEvent.get_guild, hc, ha]
  · intro ha hu
    simp [GuildEvent.get_guild, hc, ha, hu]

/-- C9 witness: the concrete cache-aware application at an
available-cached guild, an unavailable-cached guild, and a guild in
neither cache. -/
theorem get_guild_available_before_unavailable_witness :
    GuildEvent.get_guild appWithCache 10 = some { id := 10 } ∧
    GuildEvent.get_guild appWithCache 11 = some { id := 11 } ∧
    GuildEvent.get_guild appWithCache 12 = none :=
  ⟨(get_guild_available_before_unavailable appWithCache cacheStub 10 rfl).1
      { id := 10 } (by decide),
   by
    have h := (get_guild_available_before_unavailable appWithCache cacheStub 11 rfl).2.1
      (by decide)
    simpa using h,
   (get_guild_available_before_unavailable appWithCache cacheStub 12 rfl).2.2
      (by decide) (by decide)⟩

/-- Concatenation of strings is associative (helper for URL shapes). -/
theorem string_append_assoc (a b c : String) : (a ++ b) ++ c = a ++ (b ++ c) := by
  cases a with
  | mk da =>
    cases b with
    | mk db =>
      cases c with
      | mk dc =>
        show String.mk ((da ++ db) ++ dc) = String.mk (da ++ (db ++ dc))
        rw [List.append_assoc]

/-- A concrete button child component. -/
def exampleButton : PartialComponent :=
  .button 2 1 (some "ok") none (some "x") none false

/-- A concrete action row with exactly one child component. -/
def exampleRow : ActionRowComponent := { type := 1, components := [exampleButton] }

/-- C3 counterexample: on a concrete action row with one child, index
`-1` lies outside `[0, 1)` yet indexing does not fail — Python sequence
indexing resolves negative indices from the end, so the claim that
every index outside `[0, N)` fails with an out-of-bounds error is false
on the code. -/
theorem action_row_negative_index_counterexample :
    (¬ (0 ≤ (-1 : Int) ∧ (-1 : Int) < (ActionRowComponent.len exampleRow : Int))) ∧
    ActionRowComponent.getitem exampleRow (-1) = Except.ok exampleButton :=
  ⟨by decide, rfl⟩

/-- C3 (amended): over an action row holding N child components, `len`
returns N; indexing with `i` in `[0, N)` returns the i-th child in
order; indexing with `i` in `[-N, 0)` returns child `N + i` (Python
negative indexing); and indexing with `i ≥ N` or `i < -N` fails with
the out-of-bounds error kind (`IndexError`). -/
theorem action_row_indexing :
    ∀ (row : ActionRowComponent) (i : Int),
      (ActionRowComponent.len row = row.components.length) ∧
      (0 ≤ i → i < (row.components.length : Int) →
        ∃ c, row.components.get? i.toNat = some c ∧
          ActionRowComponent.getitem row i = .ok c) ∧
      (((row.components.length : Int) ≤ i ∨ i < -(row.components.length : Int)) →
        ActionRowComponent.getitem row i = .error .indexError) ∧
      (-(row.components.length : Int) ≤ i → i < 0 →
        ∃ c, row.components.get? (i + (row.components.length : Int)).toNat = some c ∧
          ActionRowComponent.getitem row i = .ok c) := by
  intro row i
  refine ⟨rfl, ?_, ?_, ?_⟩
  · intro h0 hlt
    have hlen : i.toNat < row.components.length := by omega
    cases hg : row.components.get? i.toNat with
    | none => exact absurd (List.get?_eq_none.mp hg) (by omega)
    | some c =>
      refine ⟨c, rfl, ?_⟩
      simp only [ActionRowComponent.getitem, pyGetItemList]
      rw [if_neg (by omega : ¬ i < 0)]
      rw [if_neg (by omega : ¬ i < 0)]
      rw [hg]
  · intro hout
    rcases hout with hge | hlt
    · have h0 : ¬ i < 0 := by omega
      have hnone : row.components.get? i.toNat = none :=
        List.get?_eq_none.mpr (by omega)
      simp only [ActionRowComponent.getitem, pyGetItemList]
      rw [if_neg h0, if_neg h0, hnone]
    · have h0 : i < 0 := by omega
      simp only [ActionRowComponent.getitem, pyGetItemList]
      rw [if_pos h0, if_pos (by omega : i + (row.components.length : Int) < 0)]
  · intro hge hlt
    have hlen : (i + (row.components.length : Int)).toNat < row.components.length := by
      omega
    cases hg : row.components.get? (i + (row.components.length : Int)).toNat with
    | none => exact absurd (List.get?_eq_none.mp hg) (by omega)
    | some c =>
      refine ⟨c, rfl, ?_⟩
      simp only [ActionRowComponent.getitem, pyGetItemList]
      rw [if_pos hlt, if_neg (by omega : ¬ i + (row.components.length : Int) < 0)]
      rw [hg]

/-- C3 witness: the amended behaviour at the concrete one-child row:
length 1, index 0 returns the child, index 1 and index -2 fail, index
-1 returns the child. -/
theorem action_row_indexing_witness :
    ActionRowComponent.len exampleRow = 1 ∧
    ActionRowComponent.getitem exampleRow 0 = Except.ok exampleButton ∧
    ActionRowComponent.getitem exampleRow 1 = Except.error .indexError ∧
    ActionRowComponent.getitem exampleRow (-2) = Except.error .indexError := by
  refine ⟨(action_row_indexing exampleRow 0).1, ?_, ?_, ?_⟩
  · obtain ⟨c, hc, hok⟩ := (action_row_indexing exampleRow 0).2.1 (by decide) (by decide)
    have : c = exampleButton := by
      have h : some c = some exampleButton := by rw [← hc]; rfl
      exact Option.some.inj h
    rw [← this]; exact hok
  · exact (action_row_indexing exampleRow 1).2.2.1 (by decide)
  · exact (action_row_indexing exampleRow (-2)).2.2.1 (by decide)

/-- A concrete message application with a cover image hash. -/
def exampleApplication : MessageApplication :=
  { id := 9, name := "app", cover_image_hash := some "abc", primary_sku_id := none }

/-- C4: when a cover image hash is set, `make_cover_image_url` with
size 100 (not a power of two) fails with the `InvalidArgument` error
kind before anything else happens — the builder is a pure function —
while size 128 succeeds with a URL containing the application ID and
the cover image hash. -/
theorem make_cover_image_url_validation :
    ∀ (appl : MessageApplication) (h : String), appl.cover_image_hash = some h →
      MessageApplication.make_cover_image_url appl "png" 100 = .error .valueError ∧
      ∃ u, MessageApplication.make_cover_image_url appl "png" 128 = .ok (some u) ∧
        (∃ p q, u = p ++ toString appl.id ++ q) ∧
        (∃ p q, u = p ++ h ++ q) := by
  intro appl h hhash
  constructor
  · simp only [MessageApplication.make_cover_image_url, hhash]
    rfl
  · refine ⟨CDN_URL ++ "/app-assets/" ++ toString appl.id ++ "/store/" ++ h
      ++ "." ++ "png" ++ "?size=" ++ toString 128, ?_, ?_, ?_⟩
    · simp only [MessageApplication.make_cover_image_url, hhash]
      rfl
    · refine ⟨CDN_URL ++ "/app-assets/",
        "/store/" ++ h ++ "." ++ "png" ++ "?size=" ++ toString 128, ?_⟩
      simp only [string_append_assoc]
    · refine ⟨CDN_URL ++ "/app-assets/" ++ toString appl.id ++ "/store/",
        "." ++ "png" ++ "?size=" ++ toString 128, ?_⟩
      simp only [string_append_assoc]

/-- C4 witness: the concrete application: size 100 errors, size 128
yields the concrete CDN URL with ID 9 and hash abc in it. -/
theorem make_cover_image_url_validation_witness :
    MessageApplication.make_cover_image_url exampleApplication "png" 100
        = .error .valueError ∧
    MessageApplication.make_cover_image_url exampleApplication "png" 128
        = .ok (some "https://cdn.discordapp.com/app-assets/9/store/abc.png?size=128") :=
  ⟨(make_cover_image_url_validation exampleApplication "abc" rfl).1, rfl⟩

/-- Whether the member-cache lookup that `get_members` would perform
for a mentioned user ID is a hit: the owning message must have a
cache-aware application and a guild ID, and the member cache must hold
the (guild, user) pair. -/
def member_cache_hit (msg : OwningMessage) (user_id : Snowflake) : Bool :=
  match msg.app.cache, msg.guild_id with
  | some cache, some gid => (cache.getMember gid user_id).isSome
  | _, _ => false

/-- The bulk cache lookup yields the empty mapping exactly when every
queried ID is a cache miss. -/
theorem map_cache_eq_nil_iff {α : Type} (ids : List Snowflake)
    (f : Snowflake → Option α) :
    Mentions.map_cache_maybe_discover ids f = [] ↔ ∀ id ∈ ids, f id = none := by
  induction ids with
  | nil => simp [Mentions.map_cache_maybe_discover]
  | cons a rest ih =>
    cases hf : f a with
    | some obj => simp [Mentions.map_cache_maybe_discover, hf]
    | none => simp [Mentions.map_cache_maybe_discover, hf, ih]

/-- An option is not `isSome` exactly when it is `none`. -/
theorem option_isSome_false {α : Type} {o : Option α} :
    o.isSome = false ↔ o = none := by
  cases o <;> simp

/-- A concrete `Mentions` with three mentioned users of which only user
2 has a cached member (the owning message is in guild 5). -/
def exampleMentions3 : Mentions :=
  { message := { app := appWithCache, guild_id := some 5 }
    users := .defined [(1, { id := 1 }), (2, { id := 2 }), (3, { id := 3 })]
    role_ids := .undefined
    channels := .undefined
    everyone := .undefined }

/-- A concrete `Mentions` whose users field is undefined. -/
def exampleMentionsUndefined : Mentions :=
  { message := { app := appWithCache, guild_id := some 5 }
    users := .undefined
    role_ids := .undefined
    channels := .undefined
    everyone := .undefined }

/-- C2: `get_members` returns the undefined sentinel exactly when the
users field is undefined; returns the empty mapping exactly when users
is specified and no mentioned ID is a member-cache hit (including when
the application has no cache capability); and returns a populated
mapping exactly when at least one mentioned ID is cached — misses are
silently dropped.  In particular, on the concrete mention list of three
IDs of which the cache holds one member, the result has exactly that
one entry. -/
theorem mentions_get_members_tristate :
    (∀ m : Mentions,
      (Mentions.get_members m = UndefinedOr.undefined ↔
        m.users = UndefinedOr.undefined) ∧
      (Mentions.get_members m = UndefinedOr.defined [] ↔
        ∃ us, m.users = UndefinedOr.defined us ∧
          ∀ p ∈ us, member_cache_hit m.message p.1 = false) ∧
      ((∃ r, Mentions.get_members m = UndefinedOr.defined r ∧ r ≠ []) ↔
        ∃ us, m.users = UndefinedOr.defined us ∧
          ∃ p ∈ us, member_cache_hit m.message p.1 = true)) ∧
    Mentions.get_members exampleMentions3 =
      UndefinedOr.defined [(2, { guildId := 5, userId := 2 })] := by
  constructor
  · intro m
    cases hu : m.users with
    | undefined =>
      refine ⟨?_, ?_, ?_⟩
      · simp [Mentions.get_members, hu]
      · simp [Mentions.get_members, hu]
      · simp [Mentions.get_members, hu]
    | defined us =>
      cases hc : m.message.app.cache with
      | none =>
        have hres : Mentions.get_members m = UndefinedOr.defined [] := by
          simp [Mentions.get_members, hu, hc]
        have hhit : ∀ x, member_cache_hit m.message x = false := by
          intro x
          simp [member_cache_hit, hc]
        refine ⟨?_, ?_, ?_⟩
        · simp [hres, hu]
        · simp only [hres, hu]
          simp [hhit]
        · simp only [hres, hu]
          simp [hhit]
      | some cache =>
        cases hg : m.message.guild_id with
        | none =>
          have hres : Mentions.get_members m = UndefinedOr.defined [] := by
            simp [Mentions.get_members, hu, hc, hg]
          have hhit : ∀ x, member_cache_hit m.message x = false := by
            intro x
            simp [member_cache_hit, hc, hg]
          refine ⟨?_, ?_, ?_⟩
          · simp [hres, hu]
          · simp only [hres, hu]
            simp [hhit]
          · simp only [hres, hu]
            simp [hhit]
        | some gid =>
          have hres : Mentions.get_members m = UndefinedOr.defined
              (Mentions.map_cache_maybe_discover (us.map Prod.fst)
                (fun user_id => cache.getMember gid user_id)) := by
            simp [Mentions.get_members, hu, hc, hg]
          have hhit : ∀ x, member_cache_hit m.message x =
              (cache.getMember gid x).isSome := by
            intro x
            simp [member_cache_hit, hc, hg]
          refine ⟨?_, ?_, ?_⟩
          · simp [hres, hu]
          · simp only [hres, hu, UndefinedOr.defined.injEq]
            rw [map_cache_eq_nil_iff]
            constructor
            · intro hall
              refine ⟨us, rfl, ?_⟩
              intro p hp
              rw [hhit, option_isSome_false]
              exact hall p.1 (List.mem_map.mpr ⟨p, hp, rfl⟩)
            · rintro ⟨us2, hus2, hall⟩
              subst hus2
              intro id hid
              obtain ⟨p, hp, hpid⟩ := List.mem_map.mp hid
              have := hall p hp
              rw [hhit, option_isSome_false] at this
              rw [← hpid]
              exact this
          · simp only [hres, hu, UndefinedOr.defined.injEq]
            constructor
            · rintro ⟨r, hr, hne⟩
              subst hr
              refine ⟨us, rfl, ?_⟩
              by_contra hnone
              push_neg at hnone
              apply hne
              rw [map_cache_eq_nil_iff]
              intro id hid
              obtain ⟨p, hp, hpid⟩ := List.mem_map.mp hid
              have := hnone p hp
              rw [hhit] at this
              rw [← hpid, ← option_isSome_false]
              cases hx : (cache.getMember gid p.1).isSome with
              | false => rfl
              | true => exact absurd hx this
            · rintro ⟨us2, hus2, p, hp, hphit⟩
              subst hus2
              refine ⟨_, rfl, ?_⟩
              rw [Ne, map_cache_eq_nil_iff]
              intro hall
              have := hall p.1 (List.mem_map.mpr ⟨p, hp, rfl⟩)
              rw [hhit] at hphit
              rw [this] at hphit
              simp at hphit
  · rfl

/-- C2 witness: the tri-state read out on concrete inputs through the
theorem: undefined users give the undefined sentinel, and the
three-ID example has its one-entry result nonempty. -/
theorem mentions_get_members_tristate_witness :
    Mentions.get_members exampleMentionsUndefined = UndefinedOr.undefined ∧
    ∃ r, Mentions.get_members exampleMentions3 = UndefinedOr.defined r ∧ r ≠ [] :=
  ⟨(mentions_get_members_tristate.1 exampleMentionsUndefined).1.mpr rfl,
   (mentions_get_members_tristate.1 exampleMentions3).2.2.mpr
     ⟨[(1, { id := 1 }), (2, { id := 2 }), (3, { id := 3 })], rfl,
      (2, { id := 2 }), by decide, by decide⟩⟩

/-- An application whose member cache holds every (guild, user) pair. -/
def appAllMembersCached : App :=
  { rest := restStub
    cache := some { cacheStub with
      getMember := fun g u => some { guildId := g, userId := u } } }

/-- A concrete `Mentions` owned by a message with no guild ID (a DM or
REST-sourced message) on a cache-aware application whose member cache
holds everything. -/
def exampleDMMentions : Mentions :=
  { message := { app := appAllMembersCached, guild_id := none }
    users := .defined [(1, { id := 1 })]
    role_ids := .undefined
    channels := .undefined
    everyone := .undefined }

/-- C10: when the users field is specified but the owning message has
no guild ID, `get_members` returns the empty mapping without consulting
the cache — on the concrete example the application is cache-aware and
every member is cached, and the result is still empty. -/
theorem mentions_get_members_dm_empty :
    (∀ (m : Mentions) (us : List (Snowflake × User)),
      m.users = UndefinedOr.defined us → m.message.guild_id = none →
      Mentions.get_members m = UndefinedOr.defined []) ∧
    Mentions.get_members exampleDMMentions = UndefinedOr.defined [] := by
  constructor
  · intro m us hu hg
    cases hc : m.message.app.cache with
    | none => simp [Mentions.get_members, hu, hg, hc]
    | some cache => simp [Mentions.get_members, hu, hg, hc]
  · rfl

/-- C10 witness: the theorem applied to the concrete DM-owned mentions
with a fully populated member cache. -/
theorem mentions_get_members_dm_empty_witness :
    Mentions.get_members exampleDMMentions = UndefinedOr.defined [] :=
  mentions_get_members_dm_empty.1 exampleDMMentions [(1, { id := 1 })] rfl rfl

/-- The partial-update message shape: `app`, `id` and `channel_id`
given, `guild_id` null, and every other field (including every field of
the attached mentions record) in the unspecified state. -/
def PartialMessage.mk_unspecified (app : App) (id channel_id : Snowflake) :
    PartialMessage :=
  { app := app
    id := id
    channel_id := channel_id
    guild_id := none
    author := .undefined
    member := .undefined
    content := .undefined
    timestamp := .undefined
    edited_timestamp := .undefined
    is_tts := .undefined
    mentions :=
      { message := { app := app, guild_id := none }
        users := .undefined
        role_ids := .undefined
        channels := .undefined
        everyone := .undefined }
    attachments := .undefined
    embeds := .undefined
    reactions := .undefined
    is_pinned := .undefined
    webhook_id := .undefined
    type := .undefined
    activity := .undefined
    application := .undefined
    message_reference := .undefined
    flags := .undefined
    stickers := .undefined
    nonce := .undefined
    referenced_message := .undefined
    interaction := .undefined
    application_id := .undefined
    components := .undefined }

/-- C8: the identity fields `id` and `channel_id` of a `PartialMessage`
are plain snowflakes — by construction of the type they can be neither
unspecified nor null — and the fully-partial update shape (every
non-identity field unspecified, `guild_id` null) is a valid value:
its construction succeeds for every application and pair of IDs, with
exactly the given identity fields and every other field unspecified. -/
theorem message_identity_fields_always_present :
    ∀ (app : App) (i c : Snowflake),
      (PartialMessage.mk_unspecified app i c).id = i ∧
      (PartialMessage.mk_unspecified app i c).channel_id = c ∧
      (PartialMessage.mk_unspecified app i c).guild_id = none ∧
      (PartialMessage.mk_unspecified app i c).author = .undefined ∧
      (PartialMessage.mk_unspecified app i c).member = .undefined ∧
      (PartialMessage.mk_unspecified app i c).content = .undefined ∧
      (PartialMessage.mk_unspecified app i c).timestamp = .undefined ∧
      (PartialMessage.mk_unspecified app i c).edited_timestamp = .undefined ∧
      (PartialMessage.mk_unspecified app i c).is_tts = .undefined ∧
      (PartialMessage.mk_unspecified app i c).mentions.users = .undefined ∧
      (PartialMessage.mk_unspecified app i c).mentions.role_ids = .undefined ∧
      (PartialMessage.mk_unspecified app i c).mentions.channels = .undefined ∧
      (PartialMessage.mk_unspecified app i c).mentions.everyone = .undefined ∧
      (PartialMessage.mk_unspecified app i c).attachments = .undefined ∧
      (PartialMessage.mk_unspecified app i c).embeds = .undefined ∧
      (PartialMessage.mk_unspecified app i c).reactions = .undefined ∧
      (PartialMessage.mk_unspecified app i c).is_pinned = .undefined ∧
      (PartialMessage.mk_unspecified app i c).webhook_id = .undefined ∧
      (PartialMessage.mk_unspecified app i c).type = .undefined ∧
      (PartialMessage.mk_unspecified app i c).activity = .undefined ∧
      (PartialMessage.mk_unspecified app i c).application = .undefined ∧
      (PartialMessage.mk_unspecified app i c).message_reference = .undefined ∧
      (PartialMessage.mk_unspecified app i c).flags = .undefined ∧
      (PartialMessage.mk_unspecified app i c).stickers = .undefined ∧
      (PartialMessage.mk_unspecified app i c).nonce = .undefined ∧
      (PartialMessage.mk_unspecified app i c).referenced_message = .undefined ∧
      (PartialMessage.mk_unspecified app i c).interaction = .undefined ∧
      (PartialMessage.mk_unspecified app i c).application_id = .undefined ∧
      (PartialMessage.mk_unspecified app i c).components = .undefined := by
  intro app i c
  refine ⟨rfl, rfl, rfl, rfl, rfl, rfl, rfl, rfl, rfl, rfl, rfl, rfl, rfl, rfl,
    rfl, rfl, rfl, rfl, rfl, rfl, rfl, rfl, rfl, rfl, rfl, rfl, rfl, rfl, rfl⟩

/-- A concrete fully-partial message on the cache-less application. -/
def exampleMessage : PartialMessage :=
  PartialMessage.mk_unspecified appNoCache 100 200

/-- C8 witness: the identity fields of the concrete fully-partial
message. -/
theorem message_identity_fields_always_present_witness :
    exampleMessage.id = 100 ∧ exampleMessage.channel_id = 200 :=
  ⟨(message_identity_fields_always_present appNoCache 100 200).1,
   (message_identity_fields_always_present appNoCache 100 200).2.1⟩

/-- C6: `respond` normalizes the `reply` argument before delegating to
the `create_message` REST call on the message channel: `True` becomes
the message itself (reply to self), `False` becomes the undefined
sentinel (explicit absence, no reply), an undefined argument stays
undefined, and any other value is passed through unchanged as the
target message reference; every other argument is passed through. -/
theorem respond_reply_normalization :
    ∀ (self : PartialMessage) (content : UndefinedOr String)
      (attachment : UndefinedOr Resourceish)
      (attachments : UndefinedOr (List Resourceish))
      (component : UndefinedOr ComponentBuilder)
      (components : UndefinedOr (List ComponentBuilder))
      (embed : UndefinedOr Embed) (embeds : UndefinedOr (List Embed))
      (nonce : UndefinedOr String) (tts : UndefinedOr Bool)
      (mentions_everyone : UndefinedOr Bool) (mentions_reply : UndefinedOr Bool)
      (user_mentions : UndefinedOr MentionControl)
      (role_mentions : UndefinedOr MentionControl),
      (PartialMessage.respond self content attachment attachments component components
          embed embeds nonce tts (.boolArg true) mentions_everyone mentions_reply
          user_mentions role_mentions
        = RestCall.createMessage self.channel_id content attachment attachments
            component components embed embeds nonce tts
            (.defined (.obj self)) mentions_everyone user_mentions role_mentions
            mentions_reply) ∧
      (PartialMessage.respond self content attachment attachments component components
          embed embeds nonce tts (.boolArg false) mentions_everyone mentions_reply
          user_mentions role_mentions
        = RestCall.createMessage self.channel_id content attachment attachments
            component components embed embeds nonce tts
            .undefined mentions_everyone user_mentions role_mentions
            mentions_reply) ∧
      (PartialMessage.respond self content attachment attachments component components
          embed embeds nonce tts .undefinedArg mentions_everyone mentions_reply
          user_mentions role_mentions
        = RestCall.createMessage self.channel_id content attachment attachments
            component components embed embeds nonce tts
            .undefined mentions_everyone user_mentions role_mentions
            mentions_reply) ∧
      (∀ t : SnowflakeishOr PartialMessage,
        PartialMessage.respond self content attachment attachments component components
            embed embeds nonce tts (.target t) mentions_everyone mentions_reply
            user_mentions role_mentions
          = RestCall.createMessage self.channel_id content attachment attachments
              component components embed embeds nonce tts
              (.defined t) mentions_everyone user_mentions role_mentions
              mentions_reply) :=
  fun _ _ _ _ _ _ _ _ _ _ _ _ _ _ => ⟨rfl, rfl, rfl, fun _ => rfl⟩

/-- C6 witness: the three normalization cases on the concrete message
with every other argument unspecified. -/
theorem respond_reply_normalization_witness :
    PartialMessage.respond exampleMessage .undefined .undefined .undefined .undefined
        .undefined .undefined .undefined .undefined .undefined (.boolArg true)
        .undefined .undefined .undefined .undefined
      = RestCall.createMessage 200 .undefined .undefined .undefined .undefined
          .undefined .undefined .undefined .undefined .undefined
          (.defined (.obj exampleMessage)) .undefined .undefined .undefined
          .undefined ∧
    PartialMessage.respond exampleMessage .undefined .undefined .undefined .undefined
        .undefined .undefined .undefined .undefined .undefined (.boolArg false)
        .undefined .undefined .undefined .undefined
      = RestCall.createMessage 200 .undefined .undefined .undefined .undefined
          .undefined .undefined .undefined .undefined .undefined
          .undefined .undefined .undefined .undefined .undefined ∧
    PartialMessage.respond exampleMessage .undefined .undefined .undefined .undefined
        .undefined .undefined .undefined .undefined .undefined (.target (.id 77))
        .undefined .undefined .undefined .undefined
      = RestCall.createMessage 200 .undefined .undefined .undefined .undefined
          .undefined .undefined .undefined .undefined .undefined
          (.defined (.id 77)) .undefined .undefined .undefined .undefined :=
  ⟨(respond_reply_normalization exampleMessage .undefined .undefined .undefined
      .undefined .undefined .undefined .undefined .undefined .undefined .undefined
      .undefined .undefined .undefined).1,
   (respond_reply_normalization exampleMessage .undefined .undefined .undefined
      .undefined .undefined .undefined .undefined .undefined .undefined .undefined
      .undefined .undefined .undefined).2.1,
   (respond_reply_normalization exampleMessage .undefined .undefined .undefined
      .undefined .undefined .undefined .undefined .undefined .undefined .undefined
      .undefined .undefined .undefined).2.2.2 (.id 77)⟩

/-- C7: `remove_reaction` with the user parameter unspecified delegates
to the `delete_my_reaction` REST call (removing only the reaction of
the current bot user for that emoji, not all reactions); with a user
specified it delegates to `delete_reaction` for that user. -/
theorem remove_reaction_targets_own :
    ∀ (self : PartialMessage) (emoji : EmojiOrStr)
      (emoji_id : UndefinedOr (SnowflakeishOr Emoji))
      (user : UndefinedOr (SnowflakeishOr PartialUser)),
      (user = .undefined →
        PartialMessage.remove_reaction self emoji emoji_id user
          = .deleteMyReaction self.channel_id self.id emoji emoji_id) ∧
      (∀ u, user = .defined u →
        PartialMessage.remove_reaction self emoji emoji_id user
          = .deleteReaction self.channel_id self.id emoji emoji_id u) := by
  intro self emoji emoji_id user
  constructor
  · intro h
    subst h
    rfl
  · intro u h
    subst h
    rfl

/-- C7 witness: the concrete message, with and without a user given. -/
theorem remove_reaction_targets_own_witness :
    PartialMessage.remove_reaction exampleMessage (.str "ok") .undefined .undefined
      = .deleteMyReaction 200 100 (.str "ok") .undefined ∧
    PartialMessage.remove_reaction exampleMessage (.str "ok") .undefined
        (.defined (.id 7))
      = .deleteReaction 200 100 (.str "ok") .undefined (.id 7) :=
  ⟨(remove_reaction_targets_own exampleMessage (.str "ok") .undefined .undefined).1
      rfl,
   (remove_reaction_targets_own exampleMessage (.str "ok") .undefined
      (.defined (.id 7))).2 (.id 7) rfl⟩

end Hikari
